import Mathlib

/-!
Shallow embedding of `src/lib/xdg-app-installation.c` (the flatpak/xdg-app
installation orchestrator).  External collaborators (`FlatpakDir`, the ostree
object store, the filesystem) appear as oracle environments: each external
call's outcome is a field of an `…Env` structure, and the observable state the
orchestrator mutates (remote list, pulled/deployed refs, lock, event trace) is
threaded explicitly.  C unsigned integers are `Nat`; a C unsigned division is
modelled as fallible (`udiv?`) because dividing by zero is undefined behaviour
(a crash) in the source language.
-/

namespace XdgApp

/-- Error taxonomy of the orchestrator (`xdg-app-error.h` codes plus opaque
propagated engine errors). -/
inductive FlatpakError where
  | AlreadyInstalled
  | NotInstalled
  | MalformedRef
  | MalformedBundle
  | External
deriving DecidableEq, Repr

/-- The deploy metadata read by `flatpak_dir_get_deploy_data`. -/
structure DeployData where
  origin : String
  commit : String
  subpaths : List String
  installed_size : Nat
deriving DecidableEq, Repr

/-- The snapshot value built by `get_ref` / returned by the query and
transaction entry points (`FlatpakInstalledRef`). -/
structure InstalledRef where
  ref : String
  commit : String
  latest_commit : Option String
  origin : String
  subpaths : List String
  deploy_path : String
  installed_size : Nat
  is_current : Bool
deriving DecidableEq, Repr

/-- Oracle for the read-only `FlatpakDir` queries used by `get_ref`:
deploy data, deploy dir path, per-name current ref, latest-known commit. -/
structure QueryEnv where
  deploy_data : String → DeployData
  deploy_dir : String → String
  current_ref : String → Option String
  read_latest : String → String → Option String

/-- Character-level worker for `g_strsplit (full_ref, "/", -1)`. -/
def g_strsplit_slash : List Char → List (List Char)
  | [] => [[]]
  | c :: cs =>
    let rest := g_strsplit_slash cs
    if c = '/' then [] :: rest
    else
      match rest with
      | [] => [[c]]
      | r :: rs => (c :: r) :: rs

/-- `g_strsplit (s, "/", -1)`: the "/"-separated components of `s`. -/
def g_strsplit (s : String) : List String :=
  (g_strsplit_slash s.data).map String.mk

/-- Embedding of `get_ref` (xdg-app-installation.c:294-342): split the full
ref, read deploy data, build the deploy path `deployDir/commit`, and set
`is_current` only when the first ref component is "app" and the name's
current-ref pointer equals the full ref. -/
def get_ref (env : QueryEnv) (full_ref : String) : InstalledRef :=
  let parts := g_strsplit full_ref
  let dd := env.deploy_data full_ref
  let deploy_path := env.deploy_dir full_ref ++ "/" ++ dd.commit
  let is_current :=
    if parts.headD "" = "app" then
      match env.current_ref (parts.getD 1 "") with
      | some current => full_ref == current
      | none => false
    else false
  let latest_commit := env.read_latest dd.origin full_ref
  { ref := full_ref
    commit := dd.commit
    latest_commit := latest_commit
    origin := dd.origin
    subpaths := dd.subpaths
    deploy_path := deploy_path
    installed_size := dd.installed_size
    is_current := is_current }

/-- C unsigned integer division: defined only for a non-zero divisor;
division by zero is undefined behaviour (the process crashes with SIGFPE on
the target platforms), modelled as `none`. -/
def udiv? (a b : Nat) : Option Nat :=
  if b = 0 then none else some (a / b)

/-- The low-level counters read from the `OstreeAsyncProgress` object at the
start of `progress_cb` (xdg-app-installation.c:701-737). -/
structure ProgressCounters where
  status : Option String
  outstanding_fetches : Nat
  outstanding_metadata_fetches : Nat
  outstanding_writes : Nat
  n_scanned_metadata : Nat
  fetched_delta_parts : Nat
  total_delta_parts : Nat
  total_delta_part_size : Nat
  bytes_transferred : Nat
  fetched : Nat
  metadata_fetched : Nat
  requested : Nat
  ellapsed_time : Nat
deriving DecidableEq, Repr

/-- Which branch of `progress_cb` produced the report (the formatted status
text is display-only; the structured fields below carry everything the
branch computes). -/
inductive ProgressPhase where
  | statusLine
  | deltaParts
  | metadataObjects
  | objects
  | writingObjects
  | scanningMetadata
deriving DecidableEq, Repr

/-- What one invocation of `progress_cb` hands to the caller's callback:
the branch taken, the formatted transfer rate ("-" when `bytes_sec` is 0;
only the fetch branches compute one), the percent and the estimating flag. -/
structure ProgressReport where
  phase : ProgressPhase
  rate : Option String
  percent : Nat
  estimating : Bool
deriving DecidableEq, Repr

/-- Embedding of one invocation of `progress_cb`
(xdg-app-installation.c:701-802).  `last` is the "last_progress" value stored
on the progress object; `fmt` stands for `g_format_size`.  Returns `none`
when the invocation evaluates an unsigned division by zero (undefined
behaviour in the source), otherwise the report passed to the caller's
callback together with the new stored "last_progress" value. -/
def progress_cb (fmt : Nat → String) (last : Nat) (c : ProgressCounters) :
    Option (ProgressReport × Nat) :=
  match c.status with
  | some _ =>
      let new_progress := 0
      let new_progress := if new_progress < last then last else new_progress
      some (⟨.statusLine, none, new_progress, false⟩, new_progress)
  | none =>
    if c.outstanding_fetches ≠ 0 then
      match udiv? c.bytes_transferred c.ellapsed_time with
      | none => none
      | some bytes_sec =>
        let formatted_bytes_sec := if bytes_sec = 0 then "-" else fmt bytes_sec
        if c.total_delta_parts > 0 then
          match udiv? (100 * c.bytes_transferred) c.total_delta_part_size with
          | none => none
          | some np =>
            let new_progress := if np < last then last else np
            some (⟨.deltaParts, some formatted_bytes_sec, new_progress, false⟩,
                  new_progress)
        else if c.outstanding_metadata_fetches ≠ 0 then
          let np := 1
          let new_progress := if np < last then last else np
          some (⟨.metadataObjects, some formatted_bytes_sec, new_progress, true⟩,
                new_progress)
        else
          match udiv? (100 * c.fetched) c.requested with
          | none => none
          | some np =>
            let new_progress := if np < last then last else np
            some (⟨.objects, some formatted_bytes_sec, new_progress, false⟩,
                  new_progress)
    else if c.outstanding_writes ≠ 0 then
      let new_progress := if 0 < last then last else 0
      some (⟨.writingObjects, none, new_progress, false⟩, new_progress)
    else
      let new_progress := if 0 < last then last else 0
      some (⟨.scanningMetadata, none, new_progress, false⟩, new_progress)

/-- The sequence of percent values reported to the caller over one
install/update operation: `last` starts at 0 (set when the progress object is
created, xdg-app-installation.c:973/1064) and is threaded through the stored
"last_progress"; a crashing invocation ends the operation. -/
def progress_percents (fmt : Nat → String) (last : Nat) :
    List ProgressCounters → List Nat
  | [] => []
  | c :: cs =>
    match progress_cb fmt last c with
    | none => []
    | some (r, new_last) => r.percent :: progress_percents fmt new_last cs

/-- Embedding of `flatpak_installation_fetch_remote_size_sync`
(xdg-app-installation.c:1213-1223): the body is a single `flatpak_fail`; it
touches no state, so the state argument is returned unchanged alongside the
unconditional error. -/
def flatpak_installation_fetch_remote_size_sync (σ : Type) (s : σ)
    (_remote_name _commit : String) : σ × Except String (Nat × Nat) :=
  (s, .error "Deprecated function call flatpak_installation_fetch_remote_size_sync")

/-- The identity and signing material extracted from a bundle file by
`flatpak_bundle_load`. -/
structure BundleInfo where
  to_checksum : String
  ref : String
  origin : String
  has_gpg_data : Bool
deriving DecidableEq, Repr

/-- The remote configuration of the local repo observed through
`FlatpakDir`: the list of configured remote names. -/
structure RepoState where
  remotes : List String
deriving DecidableEq, Repr

/-- `ostree_repo_remote_delete`: removes the configuration entry of the named
remote. -/
def remote_delete (s : RepoState) (name : String) : RepoState :=
  ⟨s.remotes.filter (fun r => r ≠ name)⟩

/-- Oracle outcomes of the external calls made by
`flatpak_installation_install_bundle`, in program order:
`flatpak_bundle_load`, `flatpak_decompose_ref`, the deploy-dir existence
check, `flatpak_dir_create_origin_remote` (the name it creates, `none` on
failure), `flatpak_dir_ensure_repo`, `flatpak_pull_from_bundle`,
`flatpak_dir_deploy_install`. -/
structure BundleEnv where
  load : Option BundleInfo
  decompose_ok : Bool
  deploy_exists : Bool
  create_remote : Option String
  ensure_repo_ok : Bool
  pull_ok : Bool
  deploy_ok : Bool

/-- Embedding of `flatpak_installation_install_bundle`
(xdg-app-installation.c:818-907): load the bundle, decompose its ref, fail
`AlreadyInstalled` if the deploy dir exists, create an origin remote (the
first externally visible side effect), then ensure-repo / pull-from-bundle /
deploy on a clone; any failure after the remote was added goes to `out`,
which deletes the added remote before the error return. -/
def flatpak_installation_install_bundle (env : BundleEnv) (qenv : QueryEnv)
    (s : RepoState) : RepoState × Except FlatpakError InstalledRef :=
  match env.load with
  | none => (s, .error .MalformedBundle)
  | some info =>
    if env.decompose_ok = false then (s, .error .MalformedRef)
    else if env.deploy_exists then (s, .error .AlreadyInstalled)
    else
      match env.create_remote with
      | none => (s, .error .External)
      | some remote =>
        let s1 : RepoState := ⟨s.remotes ++ [remote]⟩
        if env.ensure_repo_ok = false then
          (remote_delete s1 remote, .error .External)
        else if env.pull_ok = false then
          (remote_delete s1 remote, .error .External)
        else if env.deploy_ok = false then
          (remote_delete s1 remote, .error .External)
        else (s1, .ok (get_ref qenv info.ref))

/-- The externally visible side effects of the object-store engine during an
install from a remote: which refs were pulled and which were deployed. -/
structure InstallState where
  pulled : List String
  deployed : List String
deriving DecidableEq, Repr

/-- Oracle outcomes of the external calls made by
`flatpak_installation_install`: `flatpak_compose_ref` (the composed ref,
`none` on malformed input), the deploy-dir existence check, and
`flatpak_dir_install` as a transition on the observable side-effect state
plus a success flag. -/
structure InstallEnv where
  compose : Option String
  deploy_exists : Bool
  dir_install : InstallState → InstallState × Bool

/-- Embedding of `flatpak_installation_install`
(xdg-app-installation.c:926-990): compose the ref, fail `AlreadyInstalled`
when its deploy dir already exists (before any external side effect), else
delegate pull+deploy to `flatpak_dir_install` on a clone and return
`get_ref` of the composed ref on success. -/
def flatpak_installation_install (env : InstallEnv) (qenv : QueryEnv)
    (s : InstallState) : InstallState × Except FlatpakError InstalledRef :=
  match env.compose with
  | none => (s, .error .MalformedRef)
  | some ref =>
    if env.deploy_exists then (s, .error .AlreadyInstalled)
    else
      let (s1, ok) := env.dir_install s
      if ok then (s1, .ok (get_ref qenv ref))
      else (s1, .error .External)

/-- The `FlatpakDir` operations run by `flatpak_installation_uninstall`, as
trace events. -/
inductive UninstallEvent where
  | dropActive
  | dropCurrent
  | undeployAll
  | removeRef
  | prune
  | cleanupRemoved
  | updateExports
  | markChanged
deriving DecidableEq, Repr, Fintype

/-- Oracle outcomes of the external calls made by
`flatpak_installation_uninstall`, in program order: `flatpak_compose_ref`,
`flatpak_dir_lock`, the deploy-dir existence check, `flatpak_dir_get_origin`,
`flatpak_dir_set_active`, `flatpak_dir_current_ref`,
`flatpak_dir_drop_current_ref`, `flatpak_dir_undeploy_all` (`none` = failure,
otherwise the `was_deployed` out-value), `flatpak_dir_remove_ref`,
`flatpak_dir_prune`, `flatpak_dir_update_exports`,
`flatpak_dir_mark_changed`. -/
structure UninstallEnv where
  compose : Option String
  lock_ok : Bool
  deploy_exists : Bool
  origin : Option String
  set_active_ok : Bool
  current_ref : Option String
  drop_current_ok : Bool
  undeploy : Option Bool
  remove_ref_ok : Bool
  prune_ok : Bool
  update_exports_ok : Bool
  mark_changed_ok : Bool

/-- The tail of `flatpak_installation_uninstall` from the
`flatpak_dir_undeploy_all` call onward (xdg-app-installation.c:1162-1192):
undeploy, remove the catalog ref, release the lock (`glnx_release_lock_file`,
so everything after runs unlocked), prune, best-effort cleanup-removed
(called with a `NULL` error, so its failure never changes control flow),
export regeneration for apps, mark-changed, and the final `was_deployed`
check.  `t2` is the trace accumulated so far (all of it under the lock). -/
def uninstall_undeploy_phase (is_app : Bool) (env : UninstallEnv)
    (t2 : List (UninstallEvent × Bool)) :
    List (UninstallEvent × Bool) × Bool × Except FlatpakError Unit :=
  let t3 := t2 ++ [(UninstallEvent.undeployAll, true)]
  match env.undeploy with
  | none => (t3, false, .error .External)
  | some was_deployed =>
    let t4 := t3 ++ [(UninstallEvent.removeRef, true)]
    if env.remove_ref_ok = false then (t4, false, .error .External)
    else
      let t5 := t4 ++ [(UninstallEvent.prune, false)]
      if env.prune_ok = false then (t5, false, .error .External)
      else
        let t6 := t5 ++ [(UninstallEvent.cleanupRemoved, false)]
        let t7 := if is_app then t6 ++ [(UninstallEvent.updateExports, false)] else t6
        if is_app && (env.update_exports_ok = false) then (t7, false, .error .External)
        else
          let t8 := t7 ++ [(UninstallEvent.markChanged, false)]
          if env.mark_changed_ok = false then (t8, false, .error .External)
          else if was_deployed = false then (t8, false, .error .NotInstalled)
          else (t8, false, .ok ())

/-- Embedding of `flatpak_installation_uninstall`
(xdg-app-installation.c:1102-1193).  Output: the trace of `FlatpakDir`
operations, each tagged with whether the exclusive installation lock is held
while it runs; whether the lock is still held at return (the
`g_auto(GLnxLockFile)` scope releases it on every exit path); and the
result. -/
def flatpak_installation_uninstall (is_app : Bool) (env : UninstallEnv) :
    List (UninstallEvent × Bool) × Bool × Except FlatpakError Unit :=
  match env.compose with
  | none => ([], false, .error .MalformedRef)
  | some ref =>
    if env.lock_ok = false then ([], false, .error .External)
    else if env.deploy_exists = false then ([], false, .error .NotInstalled)
    else
      match env.origin with
      | none => ([], false, .error .External)
      | some _remote_name =>
        let t1 := [(UninstallEvent.dropActive, true)]
        if env.set_active_ok = false then (t1, false, .error .External)
        else if is_app then
          match env.current_ref with
          | some current_ref =>
            if ref = current_ref then
              let t2 := t1 ++ [(UninstallEvent.dropCurrent, true)]
              if env.drop_current_ok = false then (t2, false, .error .External)
              else uninstall_undeploy_phase is_app env t2
            else uninstall_undeploy_phase is_app env t1
          | none => uninstall_undeploy_phase is_app env t1
        else uninstall_undeploy_phase is_app env t1

/-- One entry of a remote's catalog (`FlatpakRemoteRef`): the full formatted
ref and its commit checksum. -/
structure RemoteRef where
  ref : String
  commit : String
deriving DecidableEq, Repr

/-- `g_hash_table_insert`: a later insert with an equal key replaces the
earlier value; lookups see the most recent insert. -/
def ht_insert (ht : List (String × String)) (k v : String) :
    List (String × String) :=
  (k, v) :: ht

/-- `g_hash_table_lookup`: the value of the most recent insert with this
key. -/
def ht_lookup (ht : List (String × String)) (k : String) : Option String :=
  (ht.find? (fun p => p.1 == k)).map (fun p => p.2)

/-- Oracle outcomes of the external calls made by
`flatpak_installation_list_installed_refs_for_update`:
`flatpak_installation_list_remotes` (`none` = failure, otherwise remote names
in priority order), `flatpak_installation_list_remote_refs_sync` per remote,
and `flatpak_installation_list_installed_refs` (`none` = failure). -/
structure UpdateDiffEnv where
  remotes : Option (List String)
  remote_refs : String → Except Unit (List RemoteRef)
  installed : Option (List InstalledRef)

/-- The mapping `"remoteName:fullRef" -> remoteCommit` built by the first
loop of `flatpak_installation_list_installed_refs_for_update`
(xdg-app-installation.c:546-575): remotes whose catalog listing fails are
logged and skipped and contribute nothing. -/
def build_remote_commits (env : UpdateDiffEnv) (remotes : List String) :
    List (String × String) :=
  remotes.foldl
    (fun ht r =>
      match env.remote_refs r with
      | .ok refs =>
        refs.foldl (fun ht rr => ht_insert ht (r ++ ":" ++ rr.ref) rr.commit) ht
      | .error _ => ht)
    []

/-- Embedding of `flatpak_installation_list_installed_refs_for_update`
(xdg-app-installation.c:530-598): a failure listing the remotes or the
installed refs aborts the call; per-remote catalog failures are skipped in
`build_remote_commits`; an installed ref is returned when its
`origin:fullRef` key maps to a commit that differs (g_strcmp0, with a
possibly absent latest commit) from its latest known commit. -/
def flatpak_installation_list_installed_refs_for_update (env : UpdateDiffEnv) :
    Except Unit (List InstalledRef) :=
  match env.remotes with
  | none => .error ()
  | some remotes =>
    let ht := build_remote_commits env remotes
    match env.installed with
    | none => .error ()
    | some installed =>
      .ok (installed.filter (fun ir =>
        match ht_lookup ht (ir.origin ++ ":" ++ ir.ref) with
        | some remote_commit => !(ir.latest_commit == some remote_commit)
        | none => false))

/-- Concrete query oracle used to exercise the theorems below on closed
inputs: one deployed commit, `org.foo` currently pointing at its app ref. -/
def qenvW : QueryEnv :=
  { deploy_data := fun _ => ⟨"origin1", "c0", [], 0⟩
    deploy_dir := fun r => "/deploy/" ++ r
    current_ref := fun n =>
      if n = "org.foo" then some "app/org.foo/x86_64/master" else none
    read_latest := fun _ _ => none }

/-- Concrete bundle-install run whose pull-from-bundle step fails after the
origin remote was created. -/
def benvW : BundleEnv :=
  { load := some ⟨"chk", "app/org.foo/x86_64/master", "http://origin", true⟩
    decompose_ok := true
    deploy_exists := false
    create_remote := some "org.foo-origin"
    ensure_repo_ok := true
    pull_ok := false
    deploy_ok := true }

/-- Concrete install-from-remote run whose target deploy directory already
exists. -/
def ienvW : InstallEnv :=
  { compose := some "app/org.foo/x86_64/master"
    deploy_exists := true
    dir_install := fun s => (s, true) }

/-- Concrete uninstall run in which every external step succeeds but
`undeploy_all` reports that nothing was actually deployed. -/
def uenvW : UninstallEnv :=
  { compose := some "app/org.foo/x86_64/master"
    lock_ok := true
    deploy_exists := true
    origin := some "r1"
    set_active_ok := true
    current_ref := some "app/org.foo/x86_64/master"
    drop_current_ok := true
    undeploy := some false
    remove_ref_ok := true
    prune_ok := true
    update_exports_ok := true
    mark_changed_ok := true }

/-- An installed ref whose latest known commit is stale relative to the
catalog of remote "good". -/
def irFooW : InstalledRef :=
  ⟨"app/org.foo/x86_64/master", "abc123", some "abc123", "good", [], "p", 0, true⟩

/-- Concrete update-diff oracle: remote "good" lists a newer commit for
`irFooW`, remote "bad" fails to list. -/
def udenvW : UpdateDiffEnv :=
  { remotes := some ["good", "bad"]
    remote_refs := fun r =>
      if r = "bad" then .error ()
      else .ok [⟨"app/org.foo/x86_64/master", "def456"⟩]
    installed := some [irFooW] }

/-- Concrete progress counters: object-transfer phase computing 30% while the
stored last progress is 50%. -/
def cW : ProgressCounters :=
  ⟨none, 1, 0, 0, 0, 0, 0, 0, 100, 3, 0, 10, 1⟩

end XdgApp

namespace XdgApp

/-- Claim C10: for every state and every remote name and commit, the
deprecated `flatpak_installation_fetch_remote_size_sync` leaves the state
unchanged and unconditionally returns the deprecation error, so callers can
never obtain size information through it. -/
theorem fetch_remote_size_sync_always_fails (σ : Type) (s : σ)
    (remote_name commit : String) :
    flatpak_installation_fetch_remote_size_sync σ s remote_name commit =
      (s, .error "Deprecated function call flatpak_installation_fetch_remote_size_sync") :=
  rfl

/-- Claim C3 (code finding): when `outstanding_fetches` is non-zero and the
elapsed time is zero seconds, `progress_cb` evaluates
`bytes_transferred / ellapsed_time` with a zero divisor
(xdg-app-installation.c:745) — undefined behaviour in the C source, modelled
as `none` — instead of skipping the division and displaying "-". -/
theorem progress_cb_div_by_zero :
    progress_cb (fun _ => "x") 0 ⟨none, 1, 0, 0, 0, 0, 0, 0, 1000, 0, 0, 0, 0⟩ =
      none :=
  rfl

/-- Every successful `progress_cb` invocation reports at least the stored
last progress and stores back exactly what it reported. -/
theorem progress_cb_step_le (fmt : Nat → String) (last : Nat)
    (c : ProgressCounters) (r : ProgressReport) (nl : Nat)
    (h : progress_cb fmt last c = some (r, nl)) :
    last ≤ r.percent ∧ nl = r.percent := by
  unfold progress_cb at h
  rcases c with ⟨status, ofe, omf, ow, nsm, fdp, tdp, tdps, bt, f, mf, req, et⟩
  dsimp at h
  rcases status with _ | st
  · dsimp at h
    split at h
    · split at h
      · exact absurd h (by simp)
      · split at h
        · split at h
          · exact absurd h (by simp)
          · obtain ⟨rfl, rfl⟩ := Prod.mk.inj (Option.some.inj h)
            constructor
            · dsimp
              split <;> omega
            · rfl
        · split at h
          · obtain ⟨rfl, rfl⟩ := Prod.mk.inj (Option.some.inj h)
            constructor
            · dsimp
              split <;> omega
            · rfl
          · split at h
            · exact absurd h (by simp)
            · obtain ⟨rfl, rfl⟩ := Prod.mk.inj (Option.some.inj h)
              constructor
              · dsimp
                split <;> omega
              · rfl
    · split at h <;>
      · obtain ⟨rfl, rfl⟩ := Prod.mk.inj (Option.some.inj h)
        constructor
        · dsimp
          split <;> omega
        · rfl
  · obtain ⟨rfl, rfl⟩ := Prod.mk.inj (Option.some.inj h)
    constructor
    · dsimp
      split <;> omega
    · rfl

/-- The reported percent values of one operation form a `≤`-chain from the
stored starting value. -/
theorem progress_percents_chain (fmt : Nat → String) :
    ∀ (cs : List ProgressCounters) (last : Nat),
      List.Chain (· ≤ ·) last (progress_percents fmt last cs)
  | [], _ => List.Chain.nil
  | c :: cs, last => by
    unfold progress_percents
    rcases h : progress_cb fmt last c with _ | ⟨r, nl⟩
    · exact List.Chain.nil
    · rcases progress_cb_step_le fmt last c r nl h with ⟨hle, rfl⟩
      exact List.Chain.cons hle (progress_percents_chain fmt cs r.percent)

/-- Claim C2: across one install/update operation the percent handed to the
caller's callback never decreases — each report clamps the computed value up
to the stored last progress (and stores what it reported), so the sequence
of reported percents, starting from the initial stored value 0, is
monotonically non-decreasing. -/
theorem progress_percent_monotone (fmt : Nat → String) :
    (∀ last c r nl, progress_cb fmt last c = some (r, nl) →
      last ≤ r.percent ∧ nl = r.percent) ∧
    (∀ cs, List.Chain' (· ≤ ·) (progress_percents fmt 0 cs)) := by
  refine ⟨fun last c r nl h => progress_cb_step_le fmt last c r nl h, fun cs => ?_⟩
  have h : List.Chain' (· ≤ ·) (0 :: progress_percents fmt 0 cs) :=
    progress_percents_chain fmt cs 0
  exact h.tail

/-- Claim C2 witness: on `cW` with stored last progress 50, the computed 30%
is clamped up to 50 and 50 is stored back. -/
theorem progress_percent_monotone_witness :
    (50 : Nat) ≤ 50 ∧ (50 : Nat) = 50 :=
  (progress_percent_monotone (fun _ => "x")).1 50 cW
    ⟨.objects, some "x", 50, false⟩ 50 rfl

/-- Claim C6: a snapshot's `is_current` flag is true exactly when the ref's
first component is "app" and the name's currently-active current-ref pointer
equals the full ref; in particular it is false for every "runtime" ref. -/
theorem get_ref_is_current (env : QueryEnv) (full_ref : String) :
    ((get_ref env full_ref).is_current = true ↔
      ((g_strsplit full_ref).headD "" = "app" ∧
        env.current_ref ((g_strsplit full_ref).getD 1 "") = some full_ref)) ∧
    ((g_strsplit full_ref).headD "" = "runtime" →
      (get_ref env full_ref).is_current = false) := by
  constructor
  · simp only [get_ref]
    split
    · rename_i happ
      rcases h : env.current_ref ((g_strsplit full_ref).getD 1 "") with _ | cur
      · simp [h]
      · simp only [happ, h, beq_iff_eq, Option.some.injEq, true_and]
        exact ⟨fun h' => h'.symm, fun h' => h'.symm⟩
    · rename_i hnapp
      exact ⟨fun hfalse => absurd hfalse Bool.false_ne_true,
             fun hab => absurd hab.1 hnapp⟩
  · intro hrt
    simp only [get_ref]
    rw [hrt]
    simp

/-- Claim C6 witness: under `qenvW`, the app ref that the current-ref pointer
names is reported current. -/
theorem get_ref_is_current_witness :
    (get_ref qenvW "app/org.foo/x86_64/master").is_current = true :=
  ((get_ref_is_current qenvW "app/org.foo/x86_64/master").1).mpr
    ⟨by decide, by decide⟩

/-- Claim C1: once the bundle's origin remote has been created, any failure
of a later step (ensure-repo, pull-from-bundle, or deploy) makes
`flatpak_installation_install_bundle` delete that remote before returning the
error, so no remote named after the bundle remains after a failed bundle
install. -/
theorem install_bundle_rollback (env : BundleEnv) (qenv : QueryEnv)
    (s : RepoState) (info : BundleInfo) (r : String) (e : FlatpakError)
    (hload : env.load = some info) (hdec : env.decompose_ok = true)
    (hnd : env.deploy_exists = false) (hcr : env.create_remote = some r)
    (herr : (flatpak_installation_install_bundle env qenv s).2 = .error e) :
    r ∉ (flatpak_installation_install_bundle env qenv s).1.remotes := by
  unfold flatpak_installation_install_bundle at herr ⊢
  rw [hload] at herr ⊢
  rw [hcr] at herr ⊢
  simp only [hdec, hnd] at herr ⊢
  cases hE : env.ensure_repo_ok <;> cases hP : env.pull_ok <;>
    cases hD : env.deploy_ok <;> simp_all [remote_delete]

/-- Claim C1 witness: when the pull-from-bundle step of `benvW` fails, the
remote created for the bundle is gone from the final remote list. -/
theorem install_bundle_rollback_witness :
    "org.foo-origin" ∉
      (flatpak_installation_install_bundle benvW qenvW ⟨["r1"]⟩).1.remotes :=
  install_bundle_rollback benvW qenvW ⟨["r1"]⟩
    ⟨"chk", "app/org.foo/x86_64/master", "http://origin", true⟩
    "org.foo-origin" .External rfl rfl rfl rfl rfl

/-- Claim C5: when the composed ref's deploy directory already exists,
`flatpak_installation_install` returns `AlreadyInstalled` with the
side-effect state untouched — nothing was pulled, deployed or created. -/
theorem install_fails_fast_already_installed (env : InstallEnv)
    (qenv : QueryEnv) (s : InstallState) (ref : String)
    (h1 : env.compose = some ref) (h2 : env.deploy_exists = true) :
    flatpak_installation_install env qenv s = (s, .error .AlreadyInstalled) := by
  unfold flatpak_installation_install
  rw [h1]
  simp [h2]

/-- Claim C5 witness: installing the already-deployed ref of `ienvW` fails
fast with `AlreadyInstalled` and leaves the empty side-effect state empty. -/
theorem install_fails_fast_witness :
    flatpak_installation_install ienvW qenvW ⟨[], []⟩ =
      (⟨[], []⟩, .error .AlreadyInstalled) :=
  install_fails_fast_already_installed ienvW qenvW ⟨[], []⟩
    "app/org.foo/x86_64/master" rfl rfl

/-- Claim C4: when the deploy directory exists but `undeploy_all` reports
`was_deployed = false`, `flatpak_installation_uninstall` returns
`NotInstalled` even though pointer-clearing, catalog removal, prune, export
regeneration and mark-changed all succeeded. -/
theorem uninstall_noop_not_installed (is_app : Bool) (env : UninstallEnv)
    (ref o : String)
    (h1 : env.compose = some ref) (h2 : env.lock_ok = true)
    (h3 : env.deploy_exists = true) (h4 : env.origin = some o)
    (h5 : env.set_active_ok = true) (h6 : env.drop_current_ok = true)
    (h7 : env.undeploy = some false) (h8 : env.remove_ref_ok = true)
    (h9 : env.prune_ok = true) (h10 : env.update_exports_ok = true)
    (h11 : env.mark_changed_ok = true) :
    (flatpak_installation_uninstall is_app env).2.2 = .error .NotInstalled := by
  have hp : ∀ t, (uninstall_undeploy_phase is_app env t).2.2 =
      .error .NotInstalled := by
    intro t
    unfold uninstall_undeploy_phase
    rw [h7]
    simp [h8, h9, h10, h11]
  unfold flatpak_installation_uninstall
  rw [h1, h4]
  simp only [h2, h3, h5, h6]
  repeat' split
  all_goals first | exact hp _ | simp_all

/-- Claim C4 witness: the all-steps-succeed, nothing-was-deployed run `uenvW`
ends in `NotInstalled`. -/
theorem uninstall_noop_not_installed_witness :
    (flatpak_installation_uninstall true uenvW).2.2 = .error .NotInstalled :=
  uninstall_noop_not_installed true uenvW "app/org.foo/x86_64/master" "r1"
    rfl rfl rfl rfl rfl rfl rfl rfl rfl rfl rfl

/-- In the undeploy-onward phase, the lock flag at return is false, and —
provided the trace accumulated so far already satisfies it — every prune,
cleanup-removed, export-regeneration or mark-changed event in the resulting
trace carries an unlocked tag. -/
theorem uninstall_undeploy_phase_tags (is_app : Bool) (env : UninstallEnv)
    (t : List (UninstallEvent × Bool))
    (ht : ∀ ev held, (ev, held) ∈ t →
      (ev = UninstallEvent.prune ∨ ev = UninstallEvent.cleanupRemoved ∨
        ev = UninstallEvent.updateExports ∨ ev = UninstallEvent.markChanged) →
      held = false) :
    (uninstall_undeploy_phase is_app env t).2.1 = false ∧
    ∀ ev held, (ev, held) ∈ (uninstall_undeploy_phase is_app env t).1 →
      (ev = UninstallEvent.prune ∨ ev = UninstallEvent.cleanupRemoved ∨
        ev = UninstallEvent.updateExports ∨ ev = UninstallEvent.markChanged) →
      held = false := by
  unfold uninstall_undeploy_phase
  dsimp only
  repeat' split
  all_goals refine ⟨rfl, ?_⟩
  all_goals intro ev held hmem hev
  all_goals revert hev
  all_goals simp only [List.mem_append, List.mem_cons, List.not_mem_nil,
    or_false, Prod.mk.injEq] at hmem
  all_goals casesm* _ ∨ _, _ ∧ _
  all_goals first
    | exact fun hev => ht _ _ (by assumption) hev
    | (intro hev; simp_all)

set_option maxHeartbeats 1000000 in
/-- Claim C9: on every run of `flatpak_installation_uninstall`, the
installation lock is no longer held when the call returns (released on every
exit path), and none of the prune, cleanup-removed, export-regeneration or
mark-changed operations executes while the lock is held. -/
theorem uninstall_lock_discipline (is_app : Bool) (env : UninstallEnv) :
    (flatpak_installation_uninstall is_app env).2.1 = false ∧
    ∀ ev held, (ev, held) ∈ (flatpak_installation_uninstall is_app env).1 →
      (ev = UninstallEvent.prune ∨ ev = UninstallEvent.cleanupRemoved ∨
        ev = UninstallEvent.updateExports ∨ ev = UninstallEvent.markChanged) →
      held = false := by
  unfold flatpak_installation_uninstall
  dsimp only
  repeat' split
  all_goals first
    | exact uninstall_undeploy_phase_tags _ _ _ (by decide)
    | (refine ⟨rfl, ?_⟩
       intro ev held hmem hev
       simp only [List.mem_append, List.mem_cons, List.not_mem_nil,
         or_false, Prod.mk.injEq] at hmem
       try (casesm* _ ∨ _, _ ∧ _ <;> simp_all))

/-- Claim C9 witness: the full successful-path run `uenvW` ends with the lock
released. -/
theorem uninstall_lock_discipline_witness :
    (flatpak_installation_uninstall true uenvW).2.1 = false :=
  (uninstall_lock_discipline true uenvW).1

/-- A remote whose catalog listing fails contributes nothing to the
`(remote, fullRef) -> commit` mapping: dropping it from the remote list
leaves the mapping unchanged. -/
theorem build_remote_commits_skip (env : UpdateDiffEnv) (rs1 rs2 : List String)
    (r : String) (h : env.remote_refs r = .error ()) :
    build_remote_commits env (rs1 ++ r :: rs2) =
      build_remote_commits env (rs1 ++ rs2) := by
  unfold build_remote_commits
  rw [List.foldl_append, List.foldl_append, List.foldl_cons]
  congr 1
  dsimp only
  rw [h]

/-- Claim C7: a failure listing one remote's catalog is skipped — the diff
equals the one computed with that remote absent — while a failure listing the
locally installed refs aborts the whole call with an error. -/
theorem update_diff_partial_tolerance (env : UpdateDiffEnv)
    (rs1 rs2 : List String) (r : String) :
    (env.remote_refs r = .error () →
      flatpak_installation_list_installed_refs_for_update
          { env with remotes := some (rs1 ++ r :: rs2) } =
        flatpak_installation_list_installed_refs_for_update
          { env with remotes := some (rs1 ++ rs2) }) ∧
    (env.installed = none →
      flatpak_installation_list_installed_refs_for_update env = .error ()) := by
  obtain ⟨rem0, rrefs, inst⟩ := env
  constructor
  · intro h
    unfold flatpak_installation_list_installed_refs_for_update
    dsimp only
    rw [build_remote_commits_skip ⟨some (rs1 ++ r :: rs2), rrefs, inst⟩ rs1 rs2 r h]
    rfl
  · intro h
    subst h
    unfold flatpak_installation_list_installed_refs_for_update
    rcases rem0 with _ | rs <;> rfl

/-- Claim C7 witness: dropping the failing remote "bad" from `udenvW` leaves
the computed diff unchanged. -/
theorem update_diff_partial_tolerance_witness :
    flatpak_installation_list_installed_refs_for_update
        { udenvW with remotes := some (["good"] ++ "bad" :: []) } =
      flatpak_installation_list_installed_refs_for_update
        { udenvW with remotes := some (["good"] ++ []) } :=
  (update_diff_partial_tolerance udenvW ["good"] [] "bad").1 rfl

/-- Claim C8: an installed ref is in the update list exactly when the key
`origin:fullRef` is present in the mapping built from the successfully listed
remote catalogs and the mapped commit differs from the ref's latest known
commit. -/
theorem update_diff_membership (env : UpdateDiffEnv) (rs : List String)
    (installed l : List InstalledRef) (ir : InstalledRef)
    (h1 : env.remotes = some rs) (h2 : env.installed = some installed)
    (h3 : flatpak_installation_list_installed_refs_for_update env = .ok l) :
    ir ∈ l ↔ ir ∈ installed ∧
      ∃ rc, ht_lookup (build_remote_commits env rs)
              (ir.origin ++ ":" ++ ir.ref) = some rc ∧
            ir.latest_commit ≠ some rc := by
  unfold flatpak_installation_list_installed_refs_for_update at h3
  rw [h1, h2] at h3
  dsimp only at h3
  obtain rfl := Except.ok.inj h3
  rw [List.mem_filter]
  refine and_congr_right fun _ => ?_
  rcases hlk : ht_lookup (build_remote_commits env rs)
      (ir.origin ++ ":" ++ ir.ref) with _ | rc
  · simp [hlk]
  · simp [hlk]

/-- Claim C8 witness: `irFooW`, whose origin remote advertises a commit that
differs from its latest known commit, is in the diff computed under
`udenvW`. -/
theorem update_diff_membership_witness : irFooW ∈ [irFooW] :=
  (update_diff_membership udenvW ["good", "bad"] [irFooW] [irFooW] irFooW
      rfl rfl rfl).mpr
    ⟨by decide, "def456", rfl, by decide⟩

end XdgApp
